import Mathlib

/-!
Verification of the MPEG audio header scanner (mp3.c).

The C source is shallowly embedded: the header struct becomes a Lean
structure, machine integers become `Nat` (field extractions are masked, so
all intermediate values are bounded exactly as in the 32-bit original and
no overflow is possible: the largest intermediate, `144 * (448 * 1000)`,
fits easily in 32 bits), pointers become byte offsets into a `List Nat`
buffer, and the scanning loop of `GetFirstHeader` becomes structural
recursion on the number of candidate offsets `lastLoc + 1 - firstLoc`.
-/

namespace MP3

/-- Embedding of `struct mpa_header_s` from mp3.c.  The `location` pointer
is modelled as a byte offset into the buffer. -/
structure mpa_header where
  valid : Bool
  location : Nat
  frameSize : Nat
  mpegVersion : Nat
  mpegLayer : Nat
  crcEnabled : Bool
  bitrate : Nat
  samplerate : Nat
  framePadded : Bool
  channelMode : Nat
  cmLayer2BandLower : Nat
  cmLayer2BandUpper : Nat
  cmLayer3IntensityStereo : Bool
  cmLayer3MSStereo : Bool
  copyrightFlag : Bool
  originalFlag : Bool
  emphasisMode : Nat
  deriving Repr, DecidableEq

/-- `#define INVALID_HEADER ((mpa_header) {0})` — the all-zero sentinel. -/
def INVALID_HEADER : mpa_header :=
  { valid := false, location := 0, frameSize := 0, mpegVersion := 0,
    mpegLayer := 0, crcEnabled := false, bitrate := 0, samplerate := 0,
    framePadded := false, channelMode := 0, cmLayer2BandLower := 0,
    cmLayer2BandUpper := 0, cmLayer3IntensityStereo := false,
    cmLayer3MSStereo := false, copyrightFlag := false,
    originalFlag := false, emphasisMode := 0 }

def MPEG_V1 : Nat := 1
def MPEG_V2 : Nat := 2
def MPEG_V25 : Nat := 3

def CHANNEL_MODE_STEREO : Nat := 1
def CHANNEL_MODE_JOINT_STEREO : Nat := 2
def CHANNEL_MODE_DUAL : Nat := 3
def CHANNEL_MODE_MONO : Nat := 4

def EMPHASIS_NONE : Nat := 1
def EMPHASIS_50_15_MS : Nat := 2
def EMPHASIS_CCITT_J17 : Nat := 3

/-- `(headerLoc[0] << 24) | (headerLoc[1] << 16) | (headerLoc[2] << 8) | headerLoc[3]`. -/
def headerWord (b0 b1 b2 b3 : Nat) : Nat :=
  (b0 <<< 24) ||| (b1 <<< 16) ||| (b2 <<< 8) ||| b3

/-- `(data & 0b00000000000110000000000000000000) >> 19` -/
def mpegVersionBits (data : Nat) : Nat := (data &&& 0x00180000) >>> 19

/-- `(data & 0b00000000000001100000000000000000) >> 17` -/
def mpegLayerBits (data : Nat) : Nat := (data &&& 0x00060000) >>> 17

/-- `(data & 0b00000000000000010000000000000000) >> 16` -/
def crcEnabledBits (data : Nat) : Nat := (data &&& 0x00010000) >>> 16

/-- `(data & 0b00000000000000001111000000000000) >> 12` -/
def bitrateBits (data : Nat) : Nat := (data &&& 0x0000F000) >>> 12

/-- `(data & 0b00000000000000000000110000000000) >> 10` -/
def samplerateBits (data : Nat) : Nat := (data &&& 0x00000C00) >>> 10

/-- `(data & 0b00000000000000000000001000000000) >> 9` -/
def paddingBits (data : Nat) : Nat := (data &&& 0x00000200) >>> 9

/-- `(data & 0b00000000000000000000000011000000) >> 6` -/
def cmBits (data : Nat) : Nat := (data &&& 0x000000C0) >>> 6

/-- `(data & 0b00000000000000000000000000110000) >> 4` -/
def cmeBits (data : Nat) : Nat := (data &&& 0x00000030) >>> 4

/-- `(data & 0b00000000000000000000000000001000) >> 3` -/
def copyrightBits (data : Nat) : Nat := (data &&& 0x00000008) >>> 3

/-- `(data & 0b00000000000000000000000000000100) >> 2` -/
def originalBits (data : Nat) : Nat := (data &&& 0x00000004) >>> 2

/-- `(data & 0b00000000000000000000000000000011) >> 0` -/
def emphasisBits (data : Nat) : Nat := data &&& 0x00000003

/-- Version decoding if-chain: `00 → MPEG_V25, 10 → MPEG_V2, 11 → MPEG_V1`,
anything else returns `INVALID_HEADER` (modelled as `none`). -/
def decodeVersion (bits : Nat) : Option Nat :=
  if bits = 0 then some MPEG_V25
  else if bits = 2 then some MPEG_V2
  else if bits = 3 then some MPEG_V1
  else none

/-- Layer decoding if-chain: `01 → 3, 10 → 2, 11 → 1`, else invalid. -/
def decodeLayer (bits : Nat) : Option Nat :=
  if bits = 1 then some 3
  else if bits = 2 then some 2
  else if bits = 3 then some 1
  else none

/-- The `switch (bitrateBits)` from mp3.c, lines 117-263.  Each case mirrors
the source's nested if-chains; `none` models the `return INVALID_HEADER`
of case `0b1111`.  A layer outside 1..3 leaves the field at its zero
initialisation, as the C if-chains with no final else do.  Note the source
stores 190 for (version ≠ V1, layer 1, bits 1010) although its own table
comment gives 160 for that cell. -/
def bitrateValue (bits version layer : Nat) : Option Nat :=
  match bits with
  | 0 => some 0
  | 1 => some (if version = MPEG_V1 then
        (if layer = 1 then 32 else if layer = 2 then 32 else if layer = 3 then 32 else 0)
      else (if layer = 1 then 32 else 8))
  | 2 => some (if version = MPEG_V1 then
        (if layer = 1 then 64 else if layer = 2 then 48 else if layer = 3 then 40 else 0)
      else (if layer = 1 then 48 else 16))
  | 3 => some (if version = MPEG_V1 then
        (if layer = 1 then 96 else if layer = 2 then 56 else if layer = 3 then 48 else 0)
      else (if layer = 1 then 56 else 24))
  | 4 => some (if version = MPEG_V1 then
        (if layer = 1 then 128 else if layer = 2 then 64 else if layer = 3 then 56 else 0)
      else (if layer = 1 then 64 else 32))
  | 5 => some (if version = MPEG_V1 then
        (if layer = 1 then 160 else if layer = 2 then 80 else if layer = 3 then 64 else 0)
      else (if layer = 1 then 80 else 40))
  | 6 => some (if version = MPEG_V1 then
        (if layer = 1 then 192 else if layer = 2 then 96 else if layer = 3 then 80 else 0)
      else (if layer = 1 then 96 else 48))
  | 7 => some (if version = MPEG_V1 then
        (if layer = 1 then 224 else if layer = 2 then 112 else if layer = 3 then 96 else 0)
      else (if layer = 1 then 112 else 56))
  | 8 => some (if version = MPEG_V1 then
        (if layer = 1 then 256 else if layer = 2 then 128 else if layer = 3 then 112 else 0)
      else (if layer = 1 then 128 else 64))
  | 9 => some (if version = MPEG_V1 then
        (if layer = 1 then 288 else if layer = 2 then 160 else if layer = 3 then 128 else 0)
      else (if layer = 1 then 144 else 80))
  | 10 => some (if version = MPEG_V1 then
        (if layer = 1 then 320 else if layer = 2 then 192 else if layer = 3 then 160 else 0)
      else (if layer = 1 then 190 else 96))
  | 11 => some (if version = MPEG_V1 then
        (if layer = 1 then 352 else if layer = 2 then 224 else if layer = 3 then 192 else 0)
      else (if layer = 1 then 176 else 112))
  | 12 => some (if version = MPEG_V1 then
        (if layer = 1 then 384 else if layer = 2 then 256 else if layer = 3 then 224 else 0)
      else (if layer = 1 then 192 else 128))
  | 13 => some (if version = MPEG_V1 then
        (if layer = 1 then 416 else if layer = 2 then 320 else if layer = 3 then 256 else 0)
      else (if layer = 1 then 224 else 144))
  | 14 => some (if version = MPEG_V1 then
        (if layer = 1 then 448 else if layer = 2 then 384 else if layer = 3 then 320 else 0)
      else (if layer = 1 then 256 else 160))
  | 15 => none
  | _ => some 0

/-- The `switch (samplerateBits)` from mp3.c, lines 271-289; `none` models
`return INVALID_HEADER` of case `0b11`.  A version outside 1..3 leaves the
field at its zero initialisation, like the C if-chains. -/
def samplerateValue (bits version : Nat) : Option Nat :=
  match bits with
  | 0 => some (if version = MPEG_V1 then 44100
      else if version = MPEG_V2 then 22050
      else if version = MPEG_V25 then 11025 else 0)
  | 1 => some (if version = MPEG_V1 then 48000
      else if version = MPEG_V2 then 24000
      else if version = MPEG_V25 then 12000 else 0)
  | 2 => some (if version = MPEG_V1 then 32000
      else if version = MPEG_V2 then 16000
      else if version = MPEG_V25 then 8000 else 0)
  | 3 => none
  | _ => some 0

/-- Channel-mode if-chain, mp3.c lines 295-298. -/
def channelModeValue (bits : Nat) : Nat :=
  if bits = 0 then CHANNEL_MODE_STEREO
  else if bits = 1 then CHANNEL_MODE_JOINT_STEREO
  else if bits = 2 then CHANNEL_MODE_DUAL
  else if bits = 3 then CHANNEL_MODE_MONO
  else 0

/-- Layer-1/2 mode-extension band table, mp3.c lines 308-311. -/
def layer2BandLower (bits : Nat) : Nat :=
  if bits = 0 then 4
  else if bits = 1 then 8
  else if bits = 2 then 12
  else if bits = 3 then 16
  else 0

/-- Emphasis if-chain, mp3.c lines 319-321; the reserved code `0b11` leaves
the zero initialisation in place, as in the source. -/
def emphasisValue (bits : Nat) : Nat :=
  if bits = 0 then EMPHASIS_NONE
  else if bits = 1 then EMPHASIS_50_15_MS
  else if bits = 2 then EMPHASIS_CCITT_J17
  else 0

/-- `ReadMPAHeader` working on the assembled 32-bit word; `loc` is the byte
offset standing in for the `headerLoc` pointer stored into the record. -/
def ReadMPAHeaderData (loc data : Nat) : mpa_header :=
  if ¬ (data &&& 0xFFE00000 = 0xFFE00000) then INVALID_HEADER
  else
    match decodeVersion (mpegVersionBits data) with
    | none => INVALID_HEADER
    | some version =>
      match decodeLayer (mpegLayerBits data) with
      | none => INVALID_HEADER
      | some layer =>
        match bitrateValue (bitrateBits data) version layer with
        | none => INVALID_HEADER
        | some bitrate =>
          match samplerateValue (samplerateBits data) version with
          | none => INVALID_HEADER
          | some samplerate =>
            { valid := true
              location := loc
              frameSize := 144 * (bitrate * 1000) / samplerate +
                (if paddingBits data == 1 then 1 else 0)
              mpegVersion := version
              mpegLayer := layer
              crcEnabled := crcEnabledBits data == 1
              bitrate := bitrate
              samplerate := samplerate
              framePadded := paddingBits data == 1
              channelMode := channelModeValue (cmBits data)
              cmLayer2BandLower := if layer = 3 then 0 else layer2BandLower (cmeBits data)
              cmLayer2BandUpper := if layer = 3 then 0 else 31
              cmLayer3IntensityStereo :=
                if layer = 3 then (cmeBits data == 1 || cmeBits data == 2) else false
              cmLayer3MSStereo :=
                if layer = 3 then (cmeBits data == 2 || cmeBits data == 3) else false
              copyrightFlag := copyrightBits data == 1
              originalFlag := originalBits data == 1
              emphasisMode := emphasisValue (emphasisBits data) }

/-- `ReadMPAHeader` given the four bytes the C function reads unconditionally
at `headerLoc[0] .. headerLoc[3]`.  The function has no length parameter:
it always consumes four bytes, whatever the surrounding buffer's size. -/
def ReadMPAHeaderAt (loc b0 b1 b2 b3 : Nat) : mpa_header :=
  ReadMPAHeaderData loc (headerWord b0 b1 b2 b3)

/-- `ReadMPAHeader` over a byte buffer: the pointer becomes offset `loc`.
The C code dereferences `headerLoc[0..3]` with no bounds check; reads past
the end of the modelled buffer are represented by `getD`'s default. -/
def ReadMPAHeader (buf : List Nat) (loc : Nat) : mpa_header :=
  ReadMPAHeaderAt loc (buf.getD loc 0) (buf.getD (loc + 1) 0)
    (buf.getD (loc + 2) 0) (buf.getD (loc + 3) 0)

/-- The `while (nextHdr.valid == false && firstLoc <= lastLoc)` loop of
`GetFirstHeader`, compiled to structural recursion on the number of
remaining candidate offsets. -/
def GetFirstHeaderLoop (buf : List Nat) (firstLoc : Nat) : Nat → mpa_header
  | 0 => INVALID_HEADER
  | fuel + 1 =>
    let nextHdr := ReadMPAHeader buf firstLoc
    if nextHdr.valid then nextHdr else GetFirstHeaderLoop buf (firstLoc + 1) fuel

/-- `GetFirstHeader (uint8_t* firstLoc, uint8_t* lastLoc)`: scans offsets
`firstLoc .. lastLoc` inclusive (the loop runs `lastLoc + 1 - firstLoc`
times), returning the first valid header or the all-zero sentinel. -/
def GetFirstHeader (buf : List Nat) (firstLoc lastLoc : Nat) : mpa_header :=
  GetFirstHeaderLoop buf firstLoc (lastLoc + 1 - firstLoc)

/-- `GetNextHeader`: delegates to `GetFirstHeader` starting at
`lastHdr->location + lastHdr->frameSize`. -/
def GetNextHeader (buf : List Nat) (lastHdr : mpa_header) (lastLoc : Nat) : mpa_header :=
  GetFirstHeader buf (lastHdr.location + lastHdr.frameSize) lastLoc

/-- `GetID3v2TagSize`: magic check for the bytes `I`,`D`,`3` (73, 68, 51),
then `length = (l0 << 21) | (l1 << 14) | (l2 << 7) | l3` from bytes 6..9
(no masking of the high bit of each byte), plus 20 when bit 4 of the flags
byte (byte 5) is set, else plus 10. -/
def GetID3v2TagSize (buf : List Nat) : Nat :=
  if buf.getD 0 0 = 73 ∧ buf.getD 1 0 = 68 ∧ buf.getD 2 0 = 51 then
    let l0 := buf.getD 6 0
    let l1 := buf.getD 7 0
    let l2 := buf.getD 8 0
    let l3 := buf.getD 9 0
    let length := (l0 <<< 21) ||| (l1 <<< 14) ||| (l2 <<< 7) ||| l3
    if ((buf.getD 5 0) &&& 0x10) >>> 4 = 1 then length + 20 else length + 10
  else 0

/-- Spec-side synchsafe decoding, stated from the specification's words for
comparison with `GetID3v2TagSize`: each of the four size bytes contributes
only its low 7 bits, most significant first. -/
def synchsafeDecodeSpec (l0 l1 l2 l3 : Nat) : Nat :=
  (l0 % 128) * 2 ^ 21 + (l1 % 128) * 2 ^ 14 + (l2 % 128) * 2 ^ 7 + l3 % 128

/-- Spec-side tag size, stated from the specification's words: 0 without the
`ID3` magic, otherwise the synchsafe-decoded length of bytes 6..9 plus 10,
or plus 20 when bit 4 of the flags byte is set. -/
def tagSizeSpec (buf : List Nat) : Nat :=
  if buf.getD 0 0 = 73 ∧ buf.getD 1 0 = 68 ∧ buf.getD 2 0 = 51 then
    synchsafeDecodeSpec (buf.getD 6 0) (buf.getD 7 0) (buf.getD 8 0) (buf.getD 9 0) +
      (if ((buf.getD 5 0) &&& 0x10) >>> 4 = 1 then 20 else 10)
  else 0

/-! ## Bounds on the extracted bitfields -/

lemma and_shift_le (data m s : Nat) : (data &&& m) >>> s ≤ m >>> s := by
  simp only [Nat.shiftRight_eq_div_pow]
  exact Nat.div_le_div_right Nat.and_le_right

lemma mpegVersionBits_le (data : Nat) : mpegVersionBits data ≤ 3 :=
  le_trans (and_shift_le data 0x00180000 19) (by decide)

lemma mpegLayerBits_le (data : Nat) : mpegLayerBits data ≤ 3 :=
  le_trans (and_shift_le data 0x00060000 17) (by decide)

lemma bitrateBits_le (data : Nat) : bitrateBits data ≤ 15 :=
  le_trans (and_shift_le data 0x0000F000 12) (by decide)

lemma samplerateBits_le (data : Nat) : samplerateBits data ≤ 3 :=
  le_trans (and_shift_le data 0x00000C00 10) (by decide)

lemma paddingBits_le (data : Nat) : paddingBits data ≤ 1 :=
  le_trans (and_shift_le data 0x00000200 9) (by decide)

lemma cmeBits_le (data : Nat) : cmeBits data ≤ 3 :=
  le_trans (and_shift_le data 0x00000030 4) (by decide)

/-! ## Characterisation of the decoding helpers -/

lemma decodeVersion_none_iff {b : Nat} (hb : b ≤ 3) :
    decodeVersion b = none ↔ b = 1 := by
  interval_cases b <;> simp [decodeVersion]

lemma decodeVersion_mem {b v : Nat} (h : decodeVersion b = some v) :
    v = 1 ∨ v = 2 ∨ v = 3 := by
  unfold decodeVersion MPEG_V1 MPEG_V2 MPEG_V25 at h
  split_ifs at h <;> simp_all

lemma decodeLayer_none_iff {b : Nat} (hb : b ≤ 3) :
    decodeLayer b = none ↔ b = 0 := by
  interval_cases b <;> simp [decodeLayer]

lemma decodeLayer_mem {b l : Nat} (h : decodeLayer b = some l) :
    l = 1 ∨ l = 2 ∨ l = 3 := by
  unfold decodeLayer at h
  split_ifs at h <;> simp_all

lemma bitrateValue_none_iff {b : Nat} (v l : Nat) (hb : b ≤ 15) :
    bitrateValue b v l = none ↔ b = 15 := by
  interval_cases b <;> simp [bitrateValue]

lemma bitrateValue_zero_or_ge_eight {b v l r : Nat}
    (hv : v = 1 ∨ v = 2 ∨ v = 3) (hl : l = 1 ∨ l = 2 ∨ l = 3) (hb : b ≤ 15)
    (h : bitrateValue b v l = some r) : r = 0 ∨ 8 ≤ r := by
  rcases hv with hv | hv | hv <;> rcases hl with hl | hl | hl <;> subst hv <;> subst hl <;>
    interval_cases b <;>
    simp [bitrateValue, MPEG_V1, MPEG_V2, MPEG_V25] at h <;> omega

lemma samplerateValue_none_iff {b : Nat} (v : Nat) (hb : b ≤ 3) :
    samplerateValue b v = none ↔ b = 3 := by
  interval_cases b <;> simp [samplerateValue]

lemma samplerateValue_pos_le {b v sr : Nat}
    (hv : v = 1 ∨ v = 2 ∨ v = 3) (hb : b ≤ 3)
    (h : samplerateValue b v = some sr) : 0 < sr ∧ sr ≤ 48000 := by
  rcases hv with hv | hv | hv <;> subst hv <;> interval_cases b <;>
    simp [samplerateValue, MPEG_V1, MPEG_V2, MPEG_V25] at h <;> omega

/-! ## Structural case analysis of the parser -/

/-- Every run of `ReadMPAHeaderData` either returns the all-zero sentinel or
the fully-populated record built from the four successful decodes. -/
lemma parse_cases (loc data : Nat) :
    ReadMPAHeaderData loc data = INVALID_HEADER ∨
    ∃ version layer bitrate samplerate,
      decodeVersion (mpegVersionBits data) = some version ∧
      decodeLayer (mpegLayerBits data) = some layer ∧
      bitrateValue (bitrateBits data) version layer = some bitrate ∧
      samplerateValue (samplerateBits data) version = some samplerate ∧
      ReadMPAHeaderData loc data =
        { valid := true
          location := loc
          frameSize := 144 * (bitrate * 1000) / samplerate +
            (if paddingBits data == 1 then 1 else 0)
          mpegVersion := version
          mpegLayer := layer
          crcEnabled := crcEnabledBits data == 1
          bitrate := bitrate
          samplerate := samplerate
          framePadded := paddingBits data == 1
          channelMode := channelModeValue (cmBits data)
          cmLayer2BandLower := if layer = 3 then 0 else layer2BandLower (cmeBits data)
          cmLayer2BandUpper := if layer = 3 then 0 else 31
          cmLayer3IntensityStereo :=
            if layer = 3 then (cmeBits data == 1 || cmeBits data == 2) else false
          cmLayer3MSStereo :=
            if layer = 3 then (cmeBits data == 2 || cmeBits data == 3) else false
          copyrightFlag := copyrightBits data == 1
          originalFlag := originalBits data == 1
          emphasisMode := emphasisValue (emphasisBits data) } := by
  unfold ReadMPAHeaderData
  split
  · exact Or.inl rfl
  · rcases hv : decodeVersion (mpegVersionBits data) with _ | version
    · simp [hv]
    rcases hl : decodeLayer (mpegLayerBits data) with _ | layer
    · simp [hv, hl]
    rcases hb : bitrateValue (bitrateBits data) version layer with _ | bitrate
    · simp [hv, hl, hb]
    rcases hs : samplerateValue (samplerateBits data) version with _ | samplerate
    · simp [hv, hl, hb, hs]
    · right
      exact ⟨version, layer, bitrate, samplerate, rfl, rfl, hb, hs, by simp [hb, hs]⟩

/-! ## Claim theorems -/

/-- C1: evaluating the bitrate table at the claim's four sample points.  The
code agrees with the specification table on V1/Layer1 index 0b1010 (320),
V2/Layer1 index 0b0001 (32) and V2/Layer2 index 0b0001 (8), but for
version ≠ V1, Layer 1, index 0b1010 it stores 190 where its own table
comment (and the claim) give 160. -/
theorem bitrate_table_divergence :
    (ReadMPAHeaderAt 0 255 254 160 0).valid = true ∧
    (ReadMPAHeaderAt 0 255 254 160 0).bitrate = 320 ∧
    (ReadMPAHeaderAt 0 255 246 16 0).valid = true ∧
    (ReadMPAHeaderAt 0 255 246 16 0).bitrate = 32 ∧
    (ReadMPAHeaderAt 0 255 244 16 0).valid = true ∧
    (ReadMPAHeaderAt 0 255 244 16 0).bitrate = 8 ∧
    (ReadMPAHeaderAt 0 255 246 160 0).valid = true ∧
    (ReadMPAHeaderAt 0 255 246 160 0).bitrate = 190 ∧
    ¬ (ReadMPAHeaderAt 0 255 246 160 0).bitrate = 160 := by decide

/-- C2 counterexample: a free-format header (bytes FF FA 00 00: V1, Layer 3,
bitrate index 0000, sample rate 44100) is returned with `valid = true` and
`frameSize = 0 < 4`, so a header that is neither the sentinel nor has
`frameSize ≥ 4` does escape the parser. -/
theorem freeformat_header_escapes :
    (ReadMPAHeaderAt 0 255 250 0 0).valid = true ∧
    (ReadMPAHeaderAt 0 255 250 0 0).frameSize < 4 ∧
    ReadMPAHeaderAt 0 255 250 0 0 ≠ INVALID_HEADER := by decide

/-- C3: on a valid free-format header at offset 0 with `frameSize = 0`,
`GetNextHeader` starts its re-scan at `location + frameSize = 0`, i.e. at
the same offset, and returns the very same header again — it does not skip
to `offset + 1`. -/
theorem getNextHeader_freeformat_no_progress :
    (ReadMPAHeader [255, 250, 0, 0] 0).valid = true ∧
    (ReadMPAHeader [255, 250, 0, 0] 0).bitrate = 0 ∧
    (ReadMPAHeader [255, 250, 0, 0] 0).frameSize = 0 ∧
    (ReadMPAHeader [255, 250, 0, 0] 0).location = 0 ∧
    GetNextHeader [255, 250, 0, 0] (ReadMPAHeader [255, 250, 0, 0] 0) 3 =
      ReadMPAHeader [255, 250, 0, 0] 0 := by decide

/-- C7 counterexample: a padded free-format header (bytes FF FA 02 00) gets
`frameSize = 1`, not 0: the padding increment is applied on top of the
zero quotient. -/
theorem freeformat_padded_frameSize_one :
    (ReadMPAHeaderAt 0 255 250 2 0).valid = true ∧
    (ReadMPAHeaderAt 0 255 250 2 0).bitrate = 0 ∧
    (ReadMPAHeaderAt 0 255 250 2 0).frameSize ≠ 0 := by decide

/-- C9 counterexample: with a size byte whose high bit is set (byte 9 =
0x80), the code ORs the raw byte in without masking, returning 128 + 10 =
138, while the low-7-bits synchsafe decoding of the claim gives 0 + 10 =
10. -/
theorem tagSize_high_bit_counterexample :
    GetID3v2TagSize [73, 68, 51, 0, 0, 0, 0, 0, 0, 128] = 138 ∧
    tagSizeSpec [73, 68, 51, 0, 0, 0, 0, 0, 0, 128] = 10 ∧
    GetID3v2TagSize [73, 68, 51, 0, 0, 0, 0, 0, 0, 128] ≠
      tagSizeSpec [73, 68, 51, 0, 0, 0, 0, 0, 0, 128] := by decide

/-- C5: every valid header's `frameSize` is
`144 * bitrate * 1000 / samplerate`, plus 1 when the padding bit is set;
in particular 128 kbps at 44100 Hz gives 417 unpadded and 418 padded. -/
theorem frameSize_formula :
    (∀ loc b0 b1 b2 b3 : Nat, (ReadMPAHeaderAt loc b0 b1 b2 b3).valid = true →
      (ReadMPAHeaderAt loc b0 b1 b2 b3).frameSize =
        144 * ((ReadMPAHeaderAt loc b0 b1 b2 b3).bitrate * 1000) /
          (ReadMPAHeaderAt loc b0 b1 b2 b3).samplerate +
        (if (ReadMPAHeaderAt loc b0 b1 b2 b3).framePadded then 1 else 0)) ∧
    (ReadMPAHeaderAt 0 255 251 144 0).frameSize = 417 ∧
    (ReadMPAHeaderAt 0 255 251 146 0).frameSize = 418 := by
  refine ⟨?_, by decide, by decide⟩
  intro loc b0 b1 b2 b3 hvalid
  unfold ReadMPAHeaderAt at hvalid ⊢
  rcases parse_cases loc (headerWord b0 b1 b2 b3) with h | ⟨v, l, br, sr, hv, hl, hb, hs, h⟩
  · rw [h] at hvalid
    simp [INVALID_HEADER] at hvalid
  · rw [h]

/-- C7 (amended): for every input word, whenever the frame-size division is
reached (the header is returned valid) the stored sample rate is nonzero,
and a free-format header (bitrate 0) gets frame size 0, or 1 when the
padding bit is set, rather than crashing. -/
theorem no_div_by_zero :
    ∀ loc b0 b1 b2 b3 : Nat, (ReadMPAHeaderAt loc b0 b1 b2 b3).valid = true →
      (ReadMPAHeaderAt loc b0 b1 b2 b3).samplerate ≠ 0 ∧
      ((ReadMPAHeaderAt loc b0 b1 b2 b3).bitrate = 0 →
        (ReadMPAHeaderAt loc b0 b1 b2 b3).frameSize =
          if (ReadMPAHeaderAt loc b0 b1 b2 b3).framePadded then 1 else 0) := by
  intro loc b0 b1 b2 b3 hvalid
  unfold ReadMPAHeaderAt at hvalid ⊢
  rcases parse_cases loc (headerWord b0 b1 b2 b3) with h | ⟨v, l, br, sr, hv, hl, hb, hs, h⟩
  · rw [h] at hvalid
    simp [INVALID_HEADER] at hvalid
  · have hvm := decodeVersion_mem hv
    have hsr := samplerateValue_pos_le hvm (samplerateBits_le _) hs
    rw [h]
    constructor
    · simp only []
      omega
    · intro hbr
      simp only [] at hbr
      subst hbr
      simp

/-- C2 (amended): every header the parser returns is the all-zero sentinel
when invalid; when valid it has `frameSize ≥ 4` if its bitrate is nonzero,
while a valid free-format header (bitrate 0) has `frameSize ≤ 1`. -/
theorem header_all_or_nothing :
    ∀ loc b0 b1 b2 b3 : Nat,
      ((ReadMPAHeaderAt loc b0 b1 b2 b3).valid = false →
        ReadMPAHeaderAt loc b0 b1 b2 b3 = INVALID_HEADER) ∧
      ((ReadMPAHeaderAt loc b0 b1 b2 b3).valid = true →
        ((ReadMPAHeaderAt loc b0 b1 b2 b3).bitrate ≠ 0 →
          4 ≤ (ReadMPAHeaderAt loc b0 b1 b2 b3).frameSize) ∧
        ((ReadMPAHeaderAt loc b0 b1 b2 b3).bitrate = 0 →
          (ReadMPAHeaderAt loc b0 b1 b2 b3).frameSize ≤ 1)) := by
  intro loc b0 b1 b2 b3
  unfold ReadMPAHeaderAt
  rcases parse_cases loc (headerWord b0 b1 b2 b3) with h | ⟨v, l, br, sr, hv, hl, hb, hs, h⟩
  · rw [h]
    exact ⟨fun _ => rfl, by simp [INVALID_HEADER]⟩
  · rw [h]
    refine ⟨by simp, fun _ => ⟨?_, ?_⟩⟩
    · intro hbr
      simp only [] at hbr ⊢
      have hvm := decodeVersion_mem hv
      have hlm := decodeLayer_mem hl
      have hbrv := bitrateValue_zero_or_ge_eight hvm hlm (bitrateBits_le _) hb
      have hsr := samplerateValue_pos_le hvm (samplerateBits_le _) hs
      have h8 : 8 ≤ br := by omega
      have hdiv : 4 ≤ 144 * (br * 1000) / sr := by
        rw [Nat.le_div_iff_mul_le hsr.1]
        calc 4 * sr ≤ 4 * 48000 := Nat.mul_le_mul_left 4 hsr.2
          _ ≤ 144 * (8 * 1000) := by norm_num
          _ ≤ 144 * (br * 1000) :=
              Nat.mul_le_mul_left 144 (Nat.mul_le_mul_right 1000 h8)
      exact le_trans hdiv (Nat.le_add_right _ _)
    · intro hbr
      simp only [] at hbr ⊢
      subst hbr
      simp
      split <;> omega

/-- C10: in every valid header the two mode-extension field groups are
layer-exclusive: layer 3 leaves both band fields at 0, while layers 1 and 2
leave both stereo booleans false, fix the upper band at 31 and pick the
lower band from {4, 8, 12, 16}. -/
theorem mode_extension_layer_exclusive :
    ∀ loc b0 b1 b2 b3 : Nat, (ReadMPAHeaderAt loc b0 b1 b2 b3).valid = true →
      ((ReadMPAHeaderAt loc b0 b1 b2 b3).mpegLayer = 3 →
        (ReadMPAHeaderAt loc b0 b1 b2 b3).cmLayer2BandLower = 0 ∧
        (ReadMPAHeaderAt loc b0 b1 b2 b3).cmLayer2BandUpper = 0) ∧
      ((ReadMPAHeaderAt loc b0 b1 b2 b3).mpegLayer = 1 ∨
          (ReadMPAHeaderAt loc b0 b1 b2 b3).mpegLayer = 2 →
        (ReadMPAHeaderAt loc b0 b1 b2 b3).cmLayer3IntensityStereo = false ∧
        (ReadMPAHeaderAt loc b0 b1 b2 b3).cmLayer3MSStereo = false ∧
        (ReadMPAHeaderAt loc b0 b1 b2 b3).cmLayer2BandUpper = 31 ∧
        ((ReadMPAHeaderAt loc b0 b1 b2 b3).cmLayer2BandLower = 4 ∨
         (ReadMPAHeaderAt loc b0 b1 b2 b3).cmLayer2BandLower = 8 ∨
         (ReadMPAHeaderAt loc b0 b1 b2 b3).cmLayer2BandLower = 12 ∨
         (ReadMPAHeaderAt loc b0 b1 b2 b3).cmLayer2BandLower = 16)) := by
  intro loc b0 b1 b2 b3 hvalid
  unfold ReadMPAHeaderAt at hvalid ⊢
  rcases parse_cases loc (headerWord b0 b1 b2 b3) with h | ⟨v, l, br, sr, hv, hl, hb, hs, h⟩
  · rw [h] at hvalid
    simp [INVALID_HEADER] at hvalid
  · rw [h]
    constructor
    · intro h3
      simp only [] at h3
      simp [h3]
    · intro h12
      simp only [] at h12
      have hne : ¬ l = 3 := by rcases h12 with h12 | h12 <;> omega
      have hc := cmeBits_le (headerWord b0 b1 b2 b3)
      set c := cmeBits (headerWord b0 b1 b2 b3) with hcdef
      simp [hne]
      interval_cases c <;> simp [layer2BandLower]

/-- C6: the parser returns the invalid sentinel exactly when the 11-bit sync
check fails or one of the four reserved field values occurs (version bits
01, layer bits 00, bitrate index 1111, sample-rate index 11); every other
word yields `valid = true`. -/
theorem invalid_iff_reserved :
    ∀ loc b0 b1 b2 b3 : Nat,
      (ReadMPAHeaderAt loc b0 b1 b2 b3).valid = false ↔
        (¬ (headerWord b0 b1 b2 b3 &&& 0xFFE00000 = 0xFFE00000) ∨
         mpegVersionBits (headerWord b0 b1 b2 b3) = 1 ∨
         mpegLayerBits (headerWord b0 b1 b2 b3) = 0 ∨
         bitrateBits (headerWord b0 b1 b2 b3) = 15 ∨
         samplerateBits (headerWord b0 b1 b2 b3) = 3) := by
  intro loc b0 b1 b2 b3
  unfold ReadMPAHeaderAt ReadMPAHeaderData
  generalize headerWord b0 b1 b2 b3 = data
  split
  · rename_i hsync
    simp [INVALID_HEADER, hsync]
  · rename_i hsync
    rw [not_not] at hsync
    rcases hv : decodeVersion (mpegVersionBits data) with _ | version
    · have h1 := (decodeVersion_none_iff (mpegVersionBits_le data)).mp hv
      simp [hv, INVALID_HEADER, h1]
    · have h1 : ¬ mpegVersionBits data = 1 := by
        intro e
        rw [e] at hv
        simp [decodeVersion] at hv
      rcases hl : decodeLayer (mpegLayerBits data) with _ | layer
      · have h2 := (decodeLayer_none_iff (mpegLayerBits_le data)).mp hl
        simp [hv, hl, INVALID_HEADER, h2]
      · have h2 : ¬ mpegLayerBits data = 0 := by
          intro e
          rw [e] at hl
          simp [decodeLayer] at hl
        rcases hb : bitrateValue (bitrateBits data) version layer with _ | bitrate
        · have h3 := (bitrateValue_none_iff version layer (bitrateBits_le data)).mp hb
          simp [hv, hl, hb, INVALID_HEADER, h3, bitrateValue]
        · have h3 : ¬ bitrateBits data = 15 := by
            intro e
            rw [e] at hb
            simp [bitrateValue] at hb
          rcases hs : samplerateValue (samplerateBits data) version with _ | samplerate
          · have h4 := (samplerateValue_none_iff version (samplerateBits_le data)).mp hs
            simp [hv, hl, hb, hs, INVALID_HEADER, h4, samplerateValue]
          · have h4 : ¬ samplerateBits data = 3 := by
              intro e
              rw [e] at hs
              simp [samplerateValue] at hs
            simp [hv, hl, hb, hs, hsync, h1, h2, h3, h4]

/-- The scanning loop returns the sentinel when no offset it visits parses to
a valid header. -/
lemma getFirstHeaderLoop_none (buf : List Nat) :
    ∀ fuel firstLoc,
      (∀ i, firstLoc ≤ i → i < firstLoc + fuel → (ReadMPAHeader buf i).valid = false) →
      GetFirstHeaderLoop buf firstLoc fuel = INVALID_HEADER := by
  intro fuel
  induction fuel with
  | zero => intro firstLoc _; rfl
  | succ n ih =>
    intro firstLoc h
    have h0 : (ReadMPAHeader buf firstLoc).valid = false := h firstLoc le_rfl (by omega)
    unfold GetFirstHeaderLoop
    simp only [h0, Bool.false_eq_true, if_false]
    exact ih (firstLoc + 1) (fun i hi hi2 => h i (by omega) (by omega))

/-- The scanning loop returns the header parsed at the first valid offset it
visits. -/
lemma getFirstHeaderLoop_finds (buf : List Nat) :
    ∀ fuel firstLoc i, firstLoc ≤ i → i < firstLoc + fuel →
      (ReadMPAHeader buf i).valid = true →
      (∀ j, firstLoc ≤ j → j < i → (ReadMPAHeader buf j).valid = false) →
      GetFirstHeaderLoop buf firstLoc fuel = ReadMPAHeader buf i := by
  intro fuel
  induction fuel with
  | zero => intro firstLoc i h1 h2 _ _; omega
  | succ n ih =>
    intro firstLoc i h1 h2 hv hmin
    unfold GetFirstHeaderLoop
    by_cases h0 : (ReadMPAHeader buf firstLoc).valid = true
    · have hieq : i = firstLoc := by
        by_contra hne
        have hlt : firstLoc < i := by omega
        have hcontra := hmin firstLoc le_rfl hlt
        rw [h0] at hcontra
        simp at hcontra
      subst hieq
      simp only [hv, if_true]
    · have h0' : (ReadMPAHeaderAt firstLoc (buf.getD firstLoc 0) (buf.getD (firstLoc + 1) 0)
          (buf.getD (firstLoc + 2) 0) (buf.getD (firstLoc + 3) 0)).valid = false := by
        rcases hb : (ReadMPAHeader buf firstLoc).valid with _ | _
        · exact hb
        · exact absurd hb h0
      simp only [ReadMPAHeader] at h0' ⊢
      simp only [h0', Bool.false_eq_true, if_false]
      have hne : ¬ firstLoc = i := by
        intro e
        rw [e] at h0
        exact h0 hv
      exact ih (firstLoc + 1) i (by omega) (by omega) hv
        (fun j hj hj2 => hmin j (by omega) hj2)

/-- C8: `GetFirstHeader` scans offsets `start .. end` inclusive: if no offset
in that range parses to a valid header it returns the invalid sentinel, and
if some offset does, it returns the header parsed at the first such
offset. -/
theorem getFirstHeader_spec (buf : List Nat) (s e : Nat) :
    ((∀ i, s ≤ i → i ≤ e → (ReadMPAHeader buf i).valid = false) →
      GetFirstHeader buf s e = INVALID_HEADER) ∧
    (∀ i, s ≤ i → i ≤ e → (ReadMPAHeader buf i).valid = true →
      (∀ j, s ≤ j → j < i → (ReadMPAHeader buf j).valid = false) →
      GetFirstHeader buf s e = ReadMPAHeader buf i) := by
  constructor
  · intro h
    unfold GetFirstHeader
    exact getFirstHeaderLoop_none buf _ s (fun i hi hi2 => h i hi (by omega))
  · intro i hi hie hv hmin
    unfold GetFirstHeader
    exact getFirstHeaderLoop_finds buf _ s i hi (by omega) hv hmin

/-- Bitwise OR of a shifted value with a remainder below the shift amount is
plain addition: the bit ranges are disjoint. -/
lemma shiftLeft_lor_eq_add {b : Nat} (a k : Nat) (hb : b < 2 ^ k) :
    (a <<< k) ||| b = a <<< k + b := by
  have h := Nat.mul_add_lt_is_or hb a
  rw [Nat.shiftLeft_eq, mul_comm a (2 ^ k)]
  exact h.symm

/-- When every size byte has its high bit clear, the OR-of-shifts in
`GetID3v2TagSize` computes exactly the specification's base-128 synchsafe
decoding. -/
lemma id3_length_eq {l0 l1 l2 l3 : Nat} (h0 : l0 < 128) (h1 : l1 < 128)
    (h2 : l2 < 128) (h3 : l3 < 128) :
    (l0 <<< 21) ||| (l1 <<< 14) ||| (l2 <<< 7) ||| l3 =
      synchsafeDecodeSpec l0 l1 l2 l3 := by
  have p7 : (2 : Nat) ^ 7 = 128 := by norm_num
  have p14 : (2 : Nat) ^ 14 = 16384 := by norm_num
  have p21 : (2 : Nat) ^ 21 = 2097152 := by norm_num
  have e3 : (l2 <<< 7) ||| l3 = l2 <<< 7 + l3 :=
    shiftLeft_lor_eq_add l2 7 (by omega)
  have b3 : l2 <<< 7 + l3 < 2 ^ 14 := by
    rw [Nat.shiftLeft_eq, p7, p14]
    omega
  have e2 : (l1 <<< 14) ||| ((l2 <<< 7) ||| l3) = l1 <<< 14 + (l2 <<< 7 + l3) := by
    rw [e3]
    exact shiftLeft_lor_eq_add l1 14 b3
  have b2 : l1 <<< 14 + (l2 <<< 7 + l3) < 2 ^ 21 := by
    rw [Nat.shiftLeft_eq, Nat.shiftLeft_eq, p7, p14, p21]
    rw [Nat.shiftLeft_eq, p7, p14] at b3
    omega
  have e1 : (l0 <<< 21) ||| ((l1 <<< 14) ||| ((l2 <<< 7) ||| l3)) =
      l0 <<< 21 + (l1 <<< 14 + (l2 <<< 7 + l3)) := by
    rw [e2]
    exact shiftLeft_lor_eq_add l0 21 b2
  calc (l0 <<< 21) ||| (l1 <<< 14) ||| (l2 <<< 7) ||| l3
      = (l0 <<< 21) ||| ((l1 <<< 14) ||| ((l2 <<< 7) ||| l3)) := by
        rw [Nat.or_assoc, Nat.or_assoc]
    _ = l0 <<< 21 + (l1 <<< 14 + (l2 <<< 7 + l3)) := e1
    _ = synchsafeDecodeSpec l0 l1 l2 l3 := by
        unfold synchsafeDecodeSpec
        rw [Nat.shiftLeft_eq, Nat.shiftLeft_eq, Nat.shiftLeft_eq]
        rw [Nat.mod_eq_of_lt h0, Nat.mod_eq_of_lt h1, Nat.mod_eq_of_lt h2,
          Nat.mod_eq_of_lt h3]
        ring

/-- C9 (amended): `GetID3v2TagSize` returns 0 without the `ID3` magic;
otherwise it adds 10 (or 20 with the footer flag, bit 4 of byte 5) to the
OR of the shifted raw size bytes, which coincides with the specification's
low-7-bits synchsafe decoding whenever each size byte has its high bit
clear, as synchsafe encoding guarantees.  Size bytes {0,0,2,1} give 267,
and 277 with the footer flag set. -/
theorem tagSize_matches_spec_on_synchsafe :
    (∀ buf : List Nat, buf.getD 6 0 < 128 → buf.getD 7 0 < 128 →
      buf.getD 8 0 < 128 → buf.getD 9 0 < 128 →
      GetID3v2TagSize buf = tagSizeSpec buf) ∧
    GetID3v2TagSize [73, 68, 51, 0, 0, 0, 0, 0, 2, 1] = 267 ∧
    GetID3v2TagSize [73, 68, 51, 0, 0, 16, 0, 0, 2, 1] = 277 := by
  refine ⟨?_, by decide, by decide⟩
  intro buf h6 h7 h8 h9
  unfold GetID3v2TagSize tagSizeSpec
  split
  · simp only []
    rw [id3_length_eq h6 h7 h8 h9]
    split
    · rfl
    · rfl
  · rfl

set_option maxRecDepth 4096 in
/-- C4: `ReadMPAHeader` performs no bounds check at all — it consumes four
bytes unconditionally.  Parsing at offset 0 of a 3-byte buffer holding
FF FB 90 yields a *valid* header whatever the (out-of-bounds) fourth byte
holds, instead of treating the short location as invalid, and a scan whose
end bound is that buffer's last byte (offset 2) returns that header. -/
theorem readHeader_no_bounds_check :
    (∀ b3, b3 < 256 → (ReadMPAHeaderAt 0 255 251 144 b3).valid = true) ∧
    (ReadMPAHeader [255, 251, 144] 0).valid = true ∧
    GetFirstHeader [255, 251, 144] 0 2 = ReadMPAHeader [255, 251, 144] 0 := by
  refine ⟨by decide, by decide, by decide⟩

/-! ## Witnesses: the hypothesis-bearing theorems instantiated at concrete
headers -/

/-- Witness for C5 at the 128 kbps / 44100 Hz header FF FB 90 00. -/
theorem frameSize_formula_witness :
    (ReadMPAHeaderAt 0 255 251 144 0).frameSize =
      144 * ((ReadMPAHeaderAt 0 255 251 144 0).bitrate * 1000) /
        (ReadMPAHeaderAt 0 255 251 144 0).samplerate +
      (if (ReadMPAHeaderAt 0 255 251 144 0).framePadded then 1 else 0) :=
  frameSize_formula.1 0 255 251 144 0 (by decide)

/-- Witness for C7 at the padded free-format header FF FA 02 00. -/
theorem no_div_by_zero_witness :
    (ReadMPAHeaderAt 0 255 250 2 0).samplerate ≠ 0 ∧
    (ReadMPAHeaderAt 0 255 250 2 0).frameSize =
      if (ReadMPAHeaderAt 0 255 250 2 0).framePadded then 1 else 0 := by
  have h := no_div_by_zero 0 255 250 2 0 (by decide)
  exact ⟨h.1, h.2 (by decide)⟩

/-- Witness for C2 at the unpadded free-format header FF FA 00 00. -/
theorem header_all_or_nothing_witness :
    (ReadMPAHeaderAt 0 255 250 0 0).frameSize ≤ 1 :=
  ((header_all_or_nothing 0 255 250 0 0).2 (by decide)).2 (by decide)

/-- Witness for C10 at the Layer-3 header FF FA 00 00 (at offset 9). -/
theorem mode_extension_layer_exclusive_witness :
    (ReadMPAHeaderAt 9 255 250 0 0).cmLayer2BandLower = 0 ∧
    (ReadMPAHeaderAt 9 255 250 0 0).cmLayer2BandUpper = 0 :=
  (mode_extension_layer_exclusive 9 255 250 0 0 (by decide)).1 (by decide)

/-- Witness for C8: scanning [FF FB 90 00] from 0 to 3 returns the valid
header parsed at offset 0. -/
theorem getFirstHeader_spec_witness :
    GetFirstHeader [255, 251, 144, 0] 0 3 = ReadMPAHeader [255, 251, 144, 0] 0 :=
  (getFirstHeader_spec [255, 251, 144, 0] 0 3).2 0 le_rfl (by omega) (by decide)
    (fun j _ hj => absurd hj (Nat.not_lt_zero j))

/-- Witness for C9 on a well-formed synchsafe tag. -/
theorem tagSize_matches_spec_on_synchsafe_witness :
    GetID3v2TagSize [73, 68, 51, 0, 0, 0, 0, 0, 2, 1] =
      tagSizeSpec [73, 68, 51, 0, 0, 0, 0, 0, 2, 1] :=
  tagSize_matches_spec_on_synchsafe.1 [73, 68, 51, 0, 0, 0, 0, 0, 2, 1]
    (by decide) (by decide) (by decide) (by decide)

/-- Witness for C4 at out-of-bounds byte value 7. -/
theorem readHeader_no_bounds_check_witness :
    (ReadMPAHeaderAt 0 255 251 144 7).valid = true :=
  readHeader_no_bounds_check.1 7 (by decide)

end MP3
